/-
Verification of the pg_intercept_server_logs module against its
natural-language specification.

The development shallowly embeds the source file
pg_intercept_server_logs.c.  Impure host facilities are made explicit
parameters: the timestamp plus process-id line header becomes an opaque
string parameter, and the operating-system open/write outcomes become an
explicit OsOutcome record.  The host error-raising facility ereport with
level ERROR performs a non-local exit, so functions that may invoke it
are embedded as Except-valued functions, and a caller statement placed
after a raising call is modelled as not executed on the error branch.
-/
import Mathlib

set_option autoImplicit false

/-- Severity levels of diagnostic events, mirroring the elevel constants
of the host header elog.h (DEBUG5 = 10 up to PANIC = 23). -/
inductive Severity where
  | debug5
  | debug4
  | debug3
  | debug2
  | debug1
  | log
  | log_server_only
  | info
  | notice
  | warning
  | warning_client_only
  | error
  | fatal
  | panic
  deriving DecidableEq, Repr, Fintype

/-- Numeric rank of each severity, the elevel integer of the host. -/
def Severity.elevel : Severity → Nat
  | Severity.debug5 => 10
  | Severity.debug4 => 11
  | Severity.debug3 => 12
  | Severity.debug2 => 13
  | Severity.debug1 => 14
  | Severity.log => 15
  | Severity.log_server_only => 16
  | Severity.info => 17
  | Severity.notice => 18
  | Severity.warning => 19
  | Severity.warning_client_only => 20
  | Severity.error => 21
  | Severity.fatal => 22
  | Severity.panic => 23

/-- Sentinel value of the log_level GUC meaning that interception is
disabled, from the macro LOG_LEVEL_NONE in the source. -/
def LOG_LEVEL_NONE : Nat := 255

/-- is_log_level_output from the source: is elevel logically at or above
log_min_level, with LOG sorting out of order between ERROR and FATAL. -/
def is_log_level_output (elevel : Severity) (log_min_level : Severity) : Bool :=
  if elevel = Severity.log ∨ elevel = Severity.log_server_only then
    log_min_level = Severity.log ∨ log_min_level.elevel ≤ Severity.error.elevel
  else if elevel = Severity.warning_client_only then
    /- never sent to log, regardless of log_min_level -/
    false
  else if log_min_level = Severity.log then
    /- elevel is not LOG -/
    Severity.fatal.elevel ≤ elevel.elevel
  else
    /- neither is LOG -/
    log_min_level.elevel ≤ elevel.elevel

/-- One entry of a GUC enumeration table, as in struct config_enum_entry. -/
structure config_enum_entry where
  name : String
  val : Nat
  hidden : Bool
  deriving DecidableEq, Repr

/-- log_level_options from the source: the values the log_level GUC can be
set to.  The terminating NULL sentinel of the C array is not represented
because a Lean list carries its own length. -/
def log_level_options : List config_enum_entry :=
  [⟨"debug5", Severity.debug5.elevel, false⟩,
   ⟨"debug4", Severity.debug4.elevel, false⟩,
   ⟨"debug3", Severity.debug3.elevel, false⟩,
   ⟨"debug2", Severity.debug2.elevel, false⟩,
   ⟨"debug1", Severity.debug1.elevel, false⟩,
   ⟨"debug", Severity.debug2.elevel, true⟩,
   ⟨"info", Severity.info.elevel, false⟩,
   ⟨"notice", Severity.notice.elevel, false⟩,
   ⟨"warning", Severity.warning.elevel, false⟩,
   ⟨"error", Severity.error.elevel, false⟩,
   ⟨"log", Severity.log.elevel, false⟩,
   ⟨"fatal", Severity.fatal.elevel, false⟩,
   ⟨"panic", Severity.panic.elevel, false⟩,
   ⟨"none", LOG_LEVEL_NONE, false⟩]

/-- intercept_log_severity from the source: the label string of a
severity, with a distinct label per debug sub-level.  The unreachable
default arm of the C switch is not needed because the Severity type is
exactly the enumeration of reachable elevel values. -/
def intercept_log_severity : Severity → String
  | Severity.debug1 => "DEBUG1"
  | Severity.debug2 => "DEBUG2"
  | Severity.debug3 => "DEBUG3"
  | Severity.debug4 => "DEBUG4"
  | Severity.debug5 => "DEBUG5"
  | Severity.log => "LOG"
  | Severity.log_server_only => "LOG"
  | Severity.info => "INFO"
  | Severity.notice => "NOTICE"
  | Severity.warning => "WARNING"
  | Severity.warning_client_only => "WARNING"
  | Severity.error => "ERROR"
  | Severity.fatal => "FATAL"
  | Severity.panic => "PANIC"

/-- The filtering decision at the head of intercept_log in the source:
the event is processed unless the reentrancy flag is set, or no log_level
is configured, or the event severity differs from the configured one. -/
def shouldProcess (in_intercept_log_hook : Bool) (log_level : Nat)
    (elevel : Severity) : Bool :=
  if in_intercept_log_hook then false
  else if log_level = LOG_LEVEL_NONE ∨ elevel.elevel ≠ log_level then false
  else true

/-- The character-copying loop of append_with_tabs in the source: each
character of the argument is appended to the buffer, and a horizontal tab
is appended right after each newline. -/
def append_with_tabs_core : List Char → List Char
  | [] => []
  | c :: rest =>
    if c = Char.ofNat 10 then
      c :: Char.ofNat 9 :: append_with_tabs_core rest
    else
      c :: append_with_tabs_core rest

/-- append_with_tabs from the source: appends the string str to the
buffer buf, inserting a tab after any newline. -/
def append_with_tabs (buf : String) (str : String) : String :=
  buf ++ String.mk (append_with_tabs_core str.data)

/-- unpack_sql_state of the host (elog.c): decodes the packed error code
into its five-character SQLSTATE, six bits per character, each offset
from the character zero. -/
def unpack_sql_state (sql_state : Nat) : String :=
  String.mk ((List.range 5).map
    (fun i => Char.ofNat (((sql_state >>> (6 * i)) % 64) + 48)))

/-- A diagnostic record, the fields of the host struct ErrorData that the
source reads.  Optional C pointers become Option values; cursorpos and
internalpos are signed ints where a value at most zero means absent. -/
structure ErrorData where
  elevel : Severity
  sqlerrcode : Nat
  message : Option String
  detail : Option String
  detail_log : Option String
  hint : Option String
  internalquery : Option String
  context : Option String
  hide_ctx : Bool
  funcname : Option String
  filename : Option String
  lineno : Int
  backtrace : Option String
  cursorpos : Int
  internalpos : Int
  deriving DecidableEq, Repr

/-- One section of the formatted block: the text appended to the buffer
between the timestamp-and-pid header and the line terminator, tagged by
the kind of field it renders. -/
inductive BlockSection where
  | primary (text : String)
  | detail (text : String)
  | hint (text : String)
  | query (text : String)
  | context (text : String)
  | location (text : String)
  | backtrace (text : String)
  | statement (text : String)
  deriving DecidableEq, Repr

/-- The text carried by a block section. -/
def BlockSection.text : BlockSection → String
  | BlockSection.primary t => t
  | BlockSection.detail t => t
  | BlockSection.hint t => t
  | BlockSection.query t => t
  | BlockSection.context t => t
  | BlockSection.location t => t
  | BlockSection.backtrace t => t
  | BlockSection.statement t => t

/-- The severity label, error-code label, message and position suffix of
the first section built by prepare_and_emit_intercept_log_message,
without the final position suffix. -/
def primary_message_part (edata : ErrorData) : String :=
  append_with_tabs
    (intercept_log_severity edata.elevel ++ ":  "
      ++ (if edata.sqlerrcode ≠ 0 then unpack_sql_state edata.sqlerrcode ++ ":  "
          else ""))
    (match edata.message with
     | some m => m
     | none => "missing error text")

/-- The whole first section built by prepare_and_emit_intercept_log_message:
severity label, optional SQLSTATE, message text (or the placeholder), and
the optional position suffix, in the order the source appends them. -/
def primary_text (edata : ErrorData) : String :=
  primary_message_part edata
  ++ (if 0 < edata.cursorpos then " at character " ++ toString edata.cursorpos
      else if 0 < edata.internalpos then
        " at character " ++ toString edata.internalpos
      else "")

/-- Modelled from the spec: the optional position suffix of the primary
message, using the cursor position if positive, else the internal
position if positive, with the cursor taking priority. -/
def spec_at_character_suffix (cursorpos : Int) (internalpos : Int) : String :=
  if 0 < cursorpos then " at character " ++ toString cursorpos
  else if 0 < internalpos then " at character " ++ toString internalpos
  else ""

/-- The detail section of the block: the detail_log field is preferred,
else the detail field, else nothing, as in the source if-chain. -/
def detail_section (edata : ErrorData) : List BlockSection :=
  match edata.detail_log with
  | some dl => [BlockSection.detail (append_with_tabs "DETAIL:  " dl)]
  | none =>
    match edata.detail with
    | some d => [BlockSection.detail (append_with_tabs "DETAIL:  " d)]
    | none => []

/-- The hint section of the block, present when the hint field is. -/
def hint_section (edata : ErrorData) : List BlockSection :=
  match edata.hint with
  | some h => [BlockSection.hint (append_with_tabs "HINT:  " h)]
  | none => []

/-- The query section of the block, present when internalquery is. -/
def query_section (edata : ErrorData) : List BlockSection :=
  match edata.internalquery with
  | some q => [BlockSection.query (append_with_tabs "QUERY:  " q)]
  | none => []

/-- The context section of the block, present when the context field is
present and hide_ctx is not set. -/
def context_section (edata : ErrorData) : List BlockSection :=
  match edata.context with
  | some c =>
    if edata.hide_ctx then []
    else [BlockSection.context (append_with_tabs "CONTEXT:  " c)]
  | none => []

/-- The location section of the block: function plus file and line when
both names are present, file and line when only the file name is present,
nothing otherwise, as in the source if-chain. -/
def location_section (edata : ErrorData) : List BlockSection :=
  match edata.funcname, edata.filename with
  | some fn, some f =>
    [BlockSection.location
      ("LOCATION:  " ++ fn ++ ", " ++ f ++ ":" ++ toString edata.lineno)]
  | none, some f =>
    [BlockSection.location ("LOCATION:  " ++ f ++ ":" ++ toString edata.lineno)]
  | _, none => []

/-- The backtrace section of the block, present when backtrace is. -/
def backtrace_section (edata : ErrorData) : List BlockSection :=
  match edata.backtrace with
  | some b => [BlockSection.backtrace (append_with_tabs "BACKTRACE:  " b)]
  | none => []

/-- The statement section of the block: the active top-level query text,
included whenever the host reports one, independent of hide_stmt. -/
def statement_section (debug_query_string : Option String) : List BlockSection :=
  match debug_query_string with
  | some q => [BlockSection.statement (append_with_tabs "STATEMENT:  " q)]
  | none => []

/-- The sequence of sections built by
prepare_and_emit_intercept_log_message, in source order. -/
def format_sections (edata : ErrorData) (debug_query_string : Option String) :
    List BlockSection :=
  [BlockSection.primary (primary_text edata)]
  ++ detail_section edata
  ++ hint_section edata
  ++ query_section edata
  ++ context_section edata
  ++ location_section edata
  ++ backtrace_section edata
  ++ statement_section debug_query_string

/-- The flat buffer text of a block: each section is preceded by the
timestamp-and-pid header (opaque here, because it reads the clock) and
followed by one newline, as add_prefix and the appended terminators
produce in the source. -/
def render_block (pfx : String) (secs : List BlockSection) : String :=
  String.join (secs.map (fun s => pfx ++ s.text ++ "\n"))

/-- Outcome of the operating-system calls made by write_file, supplied as
an explicit input: whether open succeeded and with what errno it failed,
and the count returned by write together with the errno it left. -/
structure OsOutcome where
  open_ok : Bool
  open_errno : Nat
  write_count : Int
  write_errno : Nat
  deriving DecidableEq, Repr

/-- The errno value ENOSPC, assumed by the source when a short write
leaves errno clear. -/
def ENOSPC : Nat := 28

/-- An error raised through ereport with level ERROR by write_file,
carrying the file path of the message and the errno reported via the m
conversion. -/
inductive FileWriteError where
  | open_failed (path : String) (errno_val : Nat)
  | write_failed (path : String) (errno_val : Nat)
  deriving DecidableEq, Repr

/-- The full path built by the snprintf in write_file:
log_directory, a slash, the severity label, and the .log suffix. -/
def log_file_path (log_directory : String) (elevel : Severity) : String :=
  log_directory ++ "/" ++ intercept_log_severity elevel ++ ".log"

/-- write_file from the source: opens the per-severity file in append
mode and writes the line.  An open failure, or a write whose count
differs from len, raises through ereport at level ERROR, modelled as the
error branch; a short write that left errno clear is reported as ENOSPC. -/
def write_file (os : OsOutcome) (len : Int) (elevel : Severity)
    (log_directory : String) : Except FileWriteError Unit :=
  let fullpath := log_file_path log_directory elevel
  if os.open_ok = false then
    Except.error (FileWriteError.open_failed fullpath os.open_errno)
  else if os.write_count ≠ len then
    Except.error (FileWriteError.write_failed fullpath
      (if os.write_errno = 0 then ENOSPC else os.write_errno))
  else
    Except.ok ()

/-- prepare_and_emit_intercept_log_message from the source: builds the
block and routes it, to the console when log_directory is the empty
string (console write failures are swallowed, so that branch always
succeeds), else to the per-severity file via write_file.  The successful
result carries the block that was written. -/
def prepare_and_emit_intercept_log_message (log_directory : String)
    (pfx : String) (os : OsOutcome) (edata : ErrorData)
    (debug_query_string : Option String) :
    Except FileWriteError (List BlockSection) :=
  let buf := format_sections edata debug_query_string
  if log_directory = "" then
    Except.ok buf
  else
    match write_file os (Int.ofNat (render_block pfx buf).length)
        edata.elevel log_directory with
    | Except.ok _ => Except.ok buf
    | Except.error e => Except.error e

/-- intercept_log from the source, as a transition on the static
reentrancy flag in_intercept_log_hook.  The chained call to a previously
installed hook is external and not modelled.  When the event is
processed, the flag is set, the formatting-and-routing call runs, and the
clearing assignment after it executes only on the non-raising branch: on
the error branch ereport has already transferred control out of the
function, so the flag remains set.  The result pairs the final flag value
with the propagated outcome. -/
def intercept_log (in_intercept_log_hook : Bool) (log_level : Nat)
    (log_directory : String) (pfx : String) (os : OsOutcome)
    (edata : ErrorData) (debug_query_string : Option String) :
    Bool × Except FileWriteError Unit :=
  if shouldProcess in_intercept_log_hook log_level edata.elevel then
    match prepare_and_emit_intercept_log_message log_directory pfx os edata
        debug_query_string with
    | Except.ok _ => (false, Except.ok ())
    | Except.error e => (true, Except.error e)
  else
    (in_intercept_log_hook, Except.ok ())

/-- Modelled from the spec: checks that every newline in a character list
is immediately followed by a horizontal tab. -/
def newlines_tabbed : List Char → Bool
  | [] => true
  | [c] => c != Char.ofNat 10
  | c :: d :: rest =>
    (c != Char.ofNat 10 || d == Char.ofNat 9) && newlines_tabbed (d :: rest)

/-- Modelled from the spec: removes the single tab standing right after
each newline, the inverse of the escaping step. -/
def strip_inserted_tabs : List Char → List Char
  | [] => []
  | [c] => [c]
  | c :: d :: rest =>
    if c == Char.ofNat 10 && d == Char.ofNat 9 then
      c :: strip_inserted_tabs rest
    else
      c :: strip_inserted_tabs (d :: rest)

/-- The texts of the detail sections of a block, in order. -/
def detail_texts (secs : List BlockSection) : List String :=
  secs.filterMap (fun s =>
    match s with
    | BlockSection.detail t => some t
    | _ => none)

/-- The texts of the location sections of a block, in order. -/
def location_texts (secs : List BlockSection) : List String :=
  secs.filterMap (fun s =>
    match s with
    | BlockSection.location t => some t
    | _ => none)

/-- A concrete record used to instantiate theorems: an ERROR-level event
whose only populated field is the message. -/
def baseEdata : ErrorData :=
  { elevel := Severity.error
    sqlerrcode := 0
    message := some "disk full"
    detail := none
    detail_log := none
    hint := none
    internalquery := none
    context := none
    hide_ctx := false
    funcname := none
    filename := none
    lineno := 0
    backtrace := none
    cursorpos := 0
    internalpos := 0 }

/-- A concrete record whose source location has a function name but no
file name. -/
def edataFuncOnly : ErrorData :=
  { baseEdata with funcname := some "fsync_fname", filename := none }

/-- A concrete record at the LOG_SERVER_ONLY severity. -/
def edataServerOnly : ErrorData :=
  { baseEdata with elevel := Severity.log_server_only }

/-- A concrete operating-system outcome where open fails with EACCES. -/
def osFailOpen : OsOutcome :=
  { open_ok := false, open_errno := 13, write_count := 0, write_errno := 0 }

/-- A concrete operating-system outcome where open succeeds but write
returns a short count of 3 and leaves errno clear. -/
def osShortWrite : OsOutcome :=
  { open_ok := true, open_errno := 0, write_count := 3, write_errno := 0 }

lemma newlines_tabbed_cons (c : Char) (l : List Char)
    (h : c ≠ Char.ofNat 10) :
    newlines_tabbed (c :: l) = newlines_tabbed l := by
  cases l with
  | nil => simp [newlines_tabbed, h]
  | cons d rest => simp [newlines_tabbed, h]

lemma newlines_tabbed_nl_tab (l : List Char) :
    newlines_tabbed (Char.ofNat 10 :: Char.ofNat 9 :: l)
      = newlines_tabbed (Char.ofNat 9 :: l) := by
  simp [newlines_tabbed]

lemma strip_inserted_tabs_cons (c : Char) (h : c ≠ Char.ofNat 10)
    (l : List Char) :
    strip_inserted_tabs (c :: l) = c :: strip_inserted_tabs l := by
  cases l with
  | nil => rfl
  | cons d rest => simp [strip_inserted_tabs, h]

lemma strip_inserted_tabs_nl_tab (l : List Char) :
    strip_inserted_tabs (Char.ofNat 10 :: Char.ofNat 9 :: l)
      = Char.ofNat 10 :: strip_inserted_tabs l := by
  simp [strip_inserted_tabs]

lemma append_with_tabs_core_nl (rest : List Char) :
    append_with_tabs_core (Char.ofNat 10 :: rest)
      = Char.ofNat 10 :: Char.ofNat 9 :: append_with_tabs_core rest := by
  simp [append_with_tabs_core]

lemma append_with_tabs_core_other (c : Char) (h : c ≠ Char.ofNat 10)
    (rest : List Char) :
    append_with_tabs_core (c :: rest) = c :: append_with_tabs_core rest := by
  simp [append_with_tabs_core, h]

lemma append_with_tabs_core_count (s : List Char) :
    (append_with_tabs_core s).count (Char.ofNat 10)
      = s.count (Char.ofNat 10) := by
  induction s with
  | nil => rfl
  | cons c rest ih =>
    by_cases hc : c = Char.ofNat 10
    · subst hc
      rw [append_with_tabs_core_nl, List.count_cons, List.count_cons,
        List.count_cons, ih]
      norm_num
      decide
    · rw [append_with_tabs_core_other c hc, List.count_cons, List.count_cons,
        ih]

lemma append_with_tabs_core_tabbed (s : List Char) :
    newlines_tabbed (append_with_tabs_core s) = true := by
  induction s with
  | nil => rfl
  | cons c rest ih =>
    by_cases hc : c = Char.ofNat 10
    · subst hc
      rw [append_with_tabs_core_nl, newlines_tabbed_nl_tab,
        newlines_tabbed_cons _ _ (by decide)]
      exact ih
    · rw [append_with_tabs_core_other c hc, newlines_tabbed_cons _ _ hc]
      exact ih

lemma append_with_tabs_core_strip (s : List Char) :
    strip_inserted_tabs (append_with_tabs_core s) = s := by
  induction s with
  | nil => rfl
  | cons c rest ih =>
    by_cases hc : c = Char.ofNat 10
    · subst hc
      rw [append_with_tabs_core_nl, strip_inserted_tabs_nl_tab, ih]
    · rw [append_with_tabs_core_other c hc, strip_inserted_tabs_cons c hc, ih]

lemma detail_texts_append (a b : List BlockSection) :
    detail_texts (a ++ b) = detail_texts a ++ detail_texts b := by
  simp [detail_texts]

lemma location_texts_append (a b : List BlockSection) :
    location_texts (a ++ b) = location_texts a ++ location_texts b := by
  simp [location_texts]

lemma detail_texts_hint_section (edata : ErrorData) :
    detail_texts (hint_section edata) = [] := by
  unfold hint_section
  cases edata.hint <;> simp [detail_texts]

lemma detail_texts_query_section (edata : ErrorData) :
    detail_texts (query_section edata) = [] := by
  unfold query_section
  cases edata.internalquery <;> simp [detail_texts]

lemma detail_texts_context_section (edata : ErrorData) :
    detail_texts (context_section edata) = [] := by
  unfold context_section
  cases edata.context <;> cases edata.hide_ctx <;> simp [detail_texts]

lemma detail_texts_location_section (edata : ErrorData) :
    detail_texts (location_section edata) = [] := by
  unfold location_section
  cases edata.funcname <;> cases edata.filename <;> simp [detail_texts]

lemma detail_texts_backtrace_section (edata : ErrorData) :
    detail_texts (backtrace_section edata) = [] := by
  unfold backtrace_section
  cases edata.backtrace <;> simp [detail_texts]

lemma detail_texts_statement_section (dqs : Option String) :
    detail_texts (statement_section dqs) = [] := by
  unfold statement_section
  cases dqs <;> simp [detail_texts]

lemma location_texts_detail_section (edata : ErrorData) :
    location_texts (detail_section edata) = [] := by
  unfold detail_section
  cases edata.detail_log <;> cases edata.detail <;> simp [location_texts]

lemma location_texts_hint_section (edata : ErrorData) :
    location_texts (hint_section edata) = [] := by
  unfold hint_section
  cases edata.hint <;> simp [location_texts]

lemma location_texts_query_section (edata : ErrorData) :
    location_texts (query_section edata) = [] := by
  unfold query_section
  cases edata.internalquery <;> simp [location_texts]

lemma location_texts_context_section (edata : ErrorData) :
    location_texts (context_section edata) = [] := by
  unfold context_section
  cases edata.context <;> cases edata.hide_ctx <;> simp [location_texts]

lemma location_texts_backtrace_section (edata : ErrorData) :
    location_texts (backtrace_section edata) = [] := by
  unfold backtrace_section
  cases edata.backtrace <;> simp [location_texts]

lemma location_texts_statement_section (dqs : Option String) :
    location_texts (statement_section dqs) = [] := by
  unfold statement_section
  cases dqs <;> simp [location_texts]

lemma detail_texts_primary (t : String) :
    detail_texts [BlockSection.primary t] = [] := rfl

lemma location_texts_primary (t : String) :
    location_texts [BlockSection.primary t] = [] := rfl

lemma intercept_log_skip (st : Bool) (ll : Nat) (dir pfx : String)
    (os : OsOutcome) (edata : ErrorData) (dqs : Option String)
    (h : shouldProcess st ll edata.elevel = false) :
    intercept_log st ll dir pfx os edata dqs = (st, Except.ok ()) := by
  unfold intercept_log
  simp [h]

/-- C1 (counterexample): with the minimum threshold at the log-class
level, the log-class severity itself is observable although its rank is
below the fatal tier, so observability at threshold LOG is not
equivalent to being at or above FATAL for every severity. -/
theorem C1_counterexample :
    is_log_level_output Severity.log Severity.log = true
      ∧ Severity.log.elevel < Severity.fatal.elevel := by
  decide

/-- C1 (amended): for every severity S other than the two log-class
severities LOG and LOG_SERVER_ONLY, with the minimum threshold at LOG,
S is observable iff S is at or above the fatal tier. -/
theorem C1_log_threshold_requires_fatal :
    ∀ S : Severity, S ≠ Severity.log → S ≠ Severity.log_server_only →
      (is_log_level_output S Severity.log = true
        ↔ Severity.fatal.elevel ≤ S.elevel) := by
  decide

/-- C1 (witness): the amended theorem instantiated at S = PANIC. -/
theorem C1_log_threshold_requires_fatal_witness :
    is_log_level_output Severity.panic Severity.log = true
      ↔ Severity.fatal.elevel ≤ Severity.panic.elevel :=
  C1_log_threshold_requires_fatal Severity.panic (by decide) (by decide)

/-- C2: at a concrete failing input (an ERROR event matching the
configured level, a file destination, open failing with EACCES), the
error raised inside write_file propagates out of intercept_log and the
reentrancy flag is left set rather than being cleared, and a later
matching event arriving with the flag still set is not processed. -/
theorem C2_flag_not_cleared_on_write_failure :
    (intercept_log false Severity.error.elevel "/tmp/logs" "P " osFailOpen
        baseEdata none).1 = true
      ∧ intercept_log true Severity.error.elevel "/tmp/logs" "P " osFailOpen
          baseEdata none = (true, Except.ok ()) := by
  constructor
  · rfl
  · rfl

/-- C3 (counterexample): a record with a function name but no file name
yields a block with no location section at all, contradicting the claim
that a location section is present whenever the function name is
present. -/
theorem C3_counterexample :
    edataFuncOnly.funcname = some "fsync_fname"
      ∧ location_texts (format_sections edataFuncOnly none) = [] := by
  constructor
  · rfl
  · rfl

/-- C3 (amended): the block contains the location section
"function, file:line" when both the function name and the file name are
present, else "file:line" when the file name is present, and no location
section when the file name is absent, even if the function name is
present. -/
theorem C3_location_section_shape (edata : ErrorData) (dqs : Option String) :
    location_texts (format_sections edata dqs) =
      match edata.funcname, edata.filename with
      | some fn, some f =>
        ["LOCATION:  " ++ fn ++ ", " ++ f ++ ":" ++ toString edata.lineno]
      | none, some f => ["LOCATION:  " ++ f ++ ":" ++ toString edata.lineno]
      | _, none => [] := by
  simp only [format_sections, location_texts_append, location_texts_primary,
    location_texts_detail_section, location_texts_hint_section,
    location_texts_query_section, location_texts_context_section,
    location_texts_backtrace_section, location_texts_statement_section,
    List.append_nil, List.nil_append]
  unfold location_section
  cases hf : edata.funcname <;> cases hfi : edata.filename <;>
    simp [location_texts]

/-- C4: the filter returns false exactly when the reentrancy flag is
set, or the configured level is the disabled sentinel, or the event
severity differs from the configured level; and when it returns true the
event is formatted and routed through
prepare_and_emit_intercept_log_message, with the propagated outcome. -/
theorem C4_filter_gate :
    (∀ (flag : Bool) (ll : Nat) (el : Severity),
      shouldProcess flag ll el = false
        ↔ (flag = true ∨ ll = LOG_LEVEL_NONE ∨ el.elevel ≠ ll))
    ∧ (∀ (flag : Bool) (ll : Nat) (dir pfx : String) (os : OsOutcome)
        (edata : ErrorData) (dqs : Option String),
        shouldProcess flag ll edata.elevel = true →
        intercept_log flag ll dir pfx os edata dqs =
          match prepare_and_emit_intercept_log_message dir pfx os edata
              dqs with
          | Except.ok _ => (false, Except.ok ())
          | Except.error e => (true, Except.error e)) := by
  constructor
  · intro flag ll el
    unfold shouldProcess
    cases flag
    · by_cases h : ll = LOG_LEVEL_NONE ∨ el.elevel ≠ ll
      · rw [if_neg Bool.false_ne_true, if_pos h]
        simpa using h
      · rw [if_neg Bool.false_ne_true, if_neg h]
        simpa using h
    · simp
  · intro flag ll dir pfx os edata dqs h
    unfold intercept_log
    simp [h]

/-- C4 (witness): the routing conjunct instantiated at a matching ERROR
event with the console destination, where routing succeeds and the flag
ends cleared. -/
theorem C4_filter_gate_witness :
    intercept_log false Severity.error.elevel "" "p" osFailOpen baseEdata
      none = (false, Except.ok ()) := by
  rw [C4_filter_gate.2 false Severity.error.elevel "" "p" osFailOpen
    baseEdata none (by decide)]
  rfl

/-- C5: a log-class event severity (LOG or LOG_SERVER_ONLY) is
observable exactly when the minimum is LOG or at most the error tier,
and WARNING_CLIENT_ONLY is observable for no minimum. -/
theorem C5_log_class_observability :
    ∀ M : Severity,
      (is_log_level_output Severity.log M = true
        ↔ (M = Severity.log ∨ M.elevel ≤ Severity.error.elevel))
      ∧ (is_log_level_output Severity.log_server_only M = true
        ↔ (M = Severity.log ∨ M.elevel ≤ Severity.error.elevel))
      ∧ is_log_level_output Severity.warning_client_only M = false := by
  decide

/-- C6: write_file succeeds exactly when open succeeded and the written
count equals the requested length; an open failure raises an error
carrying the OS errno; a short write with errno clear raises an error
carrying ENOSPC; a short write with errno set raises an error carrying
that errno. -/
theorem C6_write_file_error_reporting (os : OsOutcome) (len : Int)
    (elevel : Severity) (dir : String) :
    (write_file os len elevel dir = Except.ok ()
      ↔ os.open_ok = true ∧ os.write_count = len)
    ∧ (os.open_ok = false →
        write_file os len elevel dir
          = Except.error (FileWriteError.open_failed
              (log_file_path dir elevel) os.open_errno))
    ∧ (os.open_ok = true → os.write_count ≠ len → os.write_errno = 0 →
        write_file os len elevel dir
          = Except.error (FileWriteError.write_failed
              (log_file_path dir elevel) ENOSPC))
    ∧ (os.open_ok = true → os.write_count ≠ len → os.write_errno ≠ 0 →
        write_file os len elevel dir
          = Except.error (FileWriteError.write_failed
              (log_file_path dir elevel) os.write_errno)) := by
  obtain ⟨oo, oe, wc, we⟩ := os
  unfold write_file
  cases oo <;> by_cases hwc : wc = len <;> by_cases hwe : we = 0 <;>
    simp_all

/-- C6 (witness): a short write of 3 bytes out of 5 with errno left
clear is reported as ENOSPC. -/
theorem C6_write_file_error_reporting_witness :
    write_file osShortWrite 5 Severity.warning "d"
      = Except.error (FileWriteError.write_failed
          (log_file_path "d" Severity.warning) ENOSPC) :=
  (C6_write_file_error_reporting osShortWrite 5 Severity.warning "d").2.2.1
    rfl (by decide) rfl

/-- C7: the block carries exactly one detail section when detail_log or
detail is present, its content taken from detail_log when that is
present and from detail only otherwise, and no detail section when both
are absent. -/
theorem C7_detail_preference (edata : ErrorData) (dqs : Option String) :
    detail_texts (format_sections edata dqs) =
      match edata.detail_log, edata.detail with
      | some dl, _ => [append_with_tabs "DETAIL:  " dl]
      | none, some d => [append_with_tabs "DETAIL:  " d]
      | none, none => [] := by
  simp only [format_sections, detail_texts_append, detail_texts_primary,
    detail_texts_hint_section, detail_texts_query_section,
    detail_texts_context_section, detail_texts_location_section,
    detail_texts_backtrace_section, detail_texts_statement_section,
    List.append_nil, List.nil_append]
  unfold detail_section
  cases hdl : edata.detail_log <;> cases hd : edata.detail <;>
    simp [detail_texts]

/-- C8: the escaping step preserves every newline (the newline count is
unchanged), every newline of the output is immediately followed by a
horizontal tab, and removing the single tab inserted after each newline
restores the input exactly, so no other character is added, removed or
changed. -/
theorem C8_append_with_tabs_escaping :
    ∀ s : List Char,
      (append_with_tabs_core s).count (Char.ofNat 10)
          = s.count (Char.ofNat 10)
        ∧ newlines_tabbed (append_with_tabs_core s) = true
        ∧ strip_inserted_tabs (append_with_tabs_core s) = s :=
  fun s => ⟨append_with_tabs_core_count s, append_with_tabs_core_tabbed s,
    append_with_tabs_core_strip s⟩

/-- C9: the primary section is its message part followed by the optional
position suffix, which uses the cursor position when positive, else the
internal position when positive, else nothing; in particular with cursor
position 5 and internal position 9 the suffix is " at character 5". -/
theorem C9_at_character_suffix :
    (∀ edata : ErrorData,
      primary_text edata
        = primary_message_part edata
          ++ spec_at_character_suffix edata.cursorpos edata.internalpos)
    ∧ spec_at_character_suffix 5 9 = " at character 5" := by
  constructor
  · intro edata
    rfl
  · decide

/-- C10: no entry of the log_level option table carries the elevel of
LOG_SERVER_ONLY or WARNING_CLIENT_ONLY, so under every configurable
level an event at either severity fails the exact-severity filter and
intercept_log leaves the flag untouched and writes nothing, although the
severity-label function defines labels for both values. -/
theorem C10_unconfigurable_severities :
    (∀ e ∈ log_level_options, ∀ (st : Bool) (dir pfx : String)
        (os : OsOutcome) (dqs : Option String) (edata : ErrorData),
      (edata.elevel = Severity.log_server_only
        ∨ edata.elevel = Severity.warning_client_only) →
      shouldProcess st e.val edata.elevel = false
        ∧ intercept_log st e.val dir pfx os edata dqs
            = (st, Except.ok ()))
    ∧ intercept_log_severity Severity.log_server_only = "LOG"
    ∧ intercept_log_severity Severity.warning_client_only = "WARNING" := by
  refine ⟨?_, rfl, rfl⟩
  intro e he st dir pfx os dqs edata hel
  have hsp : shouldProcess st e.val edata.elevel = false := by
    rcases hel with h | h <;> rw [h] <;> fin_cases he <;> cases st <;> decide
  exact ⟨hsp, intercept_log_skip st e.val dir pfx os edata dqs hsp⟩

/-- C10 (witness): the theorem instantiated at the debug5 option entry
and a LOG_SERVER_ONLY event. -/
theorem C10_unconfigurable_severities_witness :
    shouldProcess false Severity.debug5.elevel edataServerOnly.elevel = false
      ∧ intercept_log false Severity.debug5.elevel "" "" osFailOpen
          edataServerOnly none = (false, Except.ok ()) :=
  C10_unconfigurable_severities.1 ⟨"debug5", Severity.debug5.elevel, false⟩
    (by decide) false "" "" osFailOpen none edataServerOnly (Or.inl rfl)
